import Mathlib

/-!
Verification of the Symi mesh-gateway protocol bridge.

Shallow embedding of `custom_components/symi_mesh_gateway/{protocol,
tcp_comm,device_manager}.py`.  Bytes are modelled as `Nat` (with explicit
masking where the Python code masks), byte strings as `List Nat`, Python
`dict`s as insertion-ordered association lists, and fallible parsers as
`Option`-returning functions.
-/

/-! ## Constants (`const.py`) -/

def PROTOCOL_HEAD : Nat := 0x53

def OP_READ_DEVICE_LIST : Nat := 0x12

def OP_DEVICE_LIST_RESPONSE : Nat := 0x92

def OP_DEVICE_CONTROL : Nat := 0x30

def OP_DEVICE_STATUS_EVENT : Nat := 0x80

def MSG_TYPE_ON_OFF : Nat := 0x02

def MSG_TYPE_LIGHT_BRIGHTNESS : Nat := 0x03

def MSG_TYPE_LIGHT_COLOR_TEMP : Nat := 0x04

def RESULT_CMD_OK : Nat := 0

def RESULT_EVENT_NODE_STATUS : Nat := 6

def DEVICE_DATA_SIZE : Nat := 16

/-! ## Checksum and framing (`protocol.py` `calculate_checksum`,
`tcp_comm.py` `send_command` lines 87-94) -/

/-- `calculate_checksum`: XOR of all bytes. -/
def calculate_checksum (data : List Nat) : Nat :=
  data.foldl (fun checksum byte => Nat.xor checksum byte) 0

/-- `send_command` appends the checksum before transmission:
`full_command = command + [checksum]`. -/
def full_command (command : List Nat) : List Nat :=
  command ++ [calculate_checksum command]

/-- Python `bytes(full_command)` succeeds iff every element fits in one
byte; otherwise it raises `ValueError` (caught inside `send_command`,
which then returns `None`). -/
def bytes_ok (l : List Nat) : Prop := ∀ b ∈ l, b < 256

instance (l : List Nat) : Decidable (bytes_ok l) :=
  inferInstanceAs (Decidable (∀ b ∈ l, b < 256))

/-! ## Device model (`protocol.py` `SymiDevice`) -/

/-- Lower-case hex digit, as produced by Python's `f"{b:02x}"`. -/
def hexChar (n : Nat) : Char :=
  if n < 10 then Char.ofNat (48 + n) else Char.ofNat (87 + n)

/-- Two lower-case hex digits for one byte (`f"{b:02x}"`). -/
def byteHex (b : Nat) : String :=
  String.mk [hexChar (b / 16), hexChar (b % 16)]

structure SymiDevice where
  mac_address : String
  network_address : Nat
  device_type : Nat
  device_subtype : Nat
  rssi : Int
  vendor_id : Nat
  extended_data : List Nat
deriving DecidableEq, Repr

/-- `unique_id`: `mac_address.replace(":", "").lower()`.  The MAC string
is built from lower-case hex digits separated by colons, so removing the
colons and lower-casing each character is exactly Python's
`replace(":", "").lower()`. -/
def SymiDevice.unique_id (d : SymiDevice) : String :=
  String.mk ((d.mac_address.data.filter (fun c => c != ':')).map Char.toLower)

/-- `channels` property: for switch types (1, 2) the subtype is the
channel count, `max(1, subtype) if subtype <= 6 else 1`; otherwise 1. -/
def SymiDevice.channels (d : SymiDevice) : Nat :=
  if d.device_type = 1 ∨ d.device_type = 2 then
    if d.device_subtype ≤ 6 then max 1 d.device_subtype else 1
  else 1

/-- `supports_brightness` property: device types 4 and 24. -/
def SymiDevice.supports_brightness (d : SymiDevice) : Bool :=
  d.device_type = 4 ∨ d.device_type = 24

/-- `supports_color_temp` property: device types 4 and 24. -/
def SymiDevice.supports_color_temp (d : SymiDevice) : Bool :=
  d.device_type = 4 ∨ d.device_type = 24

/-! ## Command encoders (`protocol.py` lines 91-115) -/

/-- `create_device_list_command`: `[PROTOCOL_HEAD, OP_READ_DEVICE_LIST,
0x00, 0x41]` (checksum appended later by `send_command`). -/
def create_device_list_command : List Nat :=
  [PROTOCOL_HEAD, OP_READ_DEVICE_LIST, 0x00, 0x41]

/-- `create_control_command`: header, control opcode, declared length 4,
little-endian address, message type, value. -/
def create_control_command (network_address msg_type value : Nat) : List Nat :=
  let addr_low := Nat.land network_address 0xFF
  let addr_high := Nat.land (Nat.shiftRight network_address 8) 0xFF
  [PROTOCOL_HEAD, OP_DEVICE_CONTROL, 0x04, addr_low, addr_high, msg_type, value]

/-! ## Response decoding (`protocol.py` `parse_response`, lines 117-140) -/

structure ParsedResponse where
  opcode : Nat
  status : Nat
  length : Nat
  data : List Nat
deriving DecidableEq, Repr

/-- `parse_response`: `None` if fewer than 4 bytes or the header byte is
not `PROTOCOL_HEAD`; otherwise opcode/status/length from bytes 1-3 and
`data = data[4:4+length]` (Python slicing truncates when the input is
short; `length = 0` yields the empty slice either way). -/
def parse_response (data : List Nat) : Option ParsedResponse :=
  match data with
  | head :: opcode :: status :: length :: rest =>
    if head ≠ PROTOCOL_HEAD then none
    else some { opcode := opcode, status := status, length := length,
                data := rest.take length }
  | _ => none

/-! ## Device-record parsing (`protocol.py` lines 142-202) -/

/-- `_parse_single_device`: `None` unless exactly 16 bytes; fixed-offset
fields, MAC formatted as colon-separated lower-case hex, address
little-endian u16, RSSI signed. -/
def parse_single_device (data : List Nat) : Option SymiDevice :=
  if data.length ≠ DEVICE_DATA_SIZE then none
  else
    let mac_bytes := data.take 6
    let mac_address := String.intercalate ":" (mac_bytes.map byteHex)
    let network_address := data[6]! + 256 * data[7]!
    let device_type := data[8]!
    let device_subtype := data[9]!
    let rssi : Int := if data[10]! < 128 then (data[10]! : Int) else (data[10]! : Int) - 256
    let vendor_id := data[11]!
    let extended_data := (data.drop 12).take 4
    some { mac_address := mac_address, network_address := network_address,
           device_type := device_type, device_subtype := device_subtype,
           rssi := rssi, vendor_id := vendor_id, extended_data := extended_data }

/-- `parse_device_list`: empty result unless the length is a multiple of
16; each 16-byte slice is parsed independently, failures skipped. -/
def parse_device_list (data : List Nat) : List SymiDevice :=
  if data.length % DEVICE_DATA_SIZE ≠ 0 then []
  else (List.range (data.length / DEVICE_DATA_SIZE)).filterMap
    (fun i => parse_single_device ((data.drop (i * DEVICE_DATA_SIZE)).take DEVICE_DATA_SIZE))

/-! ## Status-event parsing (`protocol.py` lines 204-237) -/

structure DeviceStatus where
  network_address : Nat
  msg_type : Nat
  value : Nat
deriving DecidableEq, Repr

/-- The `while offset < len(data) - 1` pair loop of `parse_status_event`,
expressed on the suffix `data[offset:]`: the loop reads a `(msg_type,
value)` pair and advances by two exactly while `offset + 1 < len(data)`,
i.e. while at least two bytes remain in the suffix.  (The loop body's
`if offset + 1 >= len(data): break` guard is dead code: `offset <
len(data) - 1` already implies it never fires.) -/
def parse_pairs : List Nat → List (Nat × Nat)
  | msg_type :: value :: rest => (msg_type, value) :: parse_pairs rest
  | _ => []

/-- `parse_status_event`: `None` for payloads under 6 bytes; byte 0 is
skipped, bytes 1-2 are the little-endian network address, and the pair
loop starts at offset 3. -/
def parse_status_event (data : List Nat) : Option (List DeviceStatus) :=
  if data.length < 6 then none
  else
    let network_address := data[1]! + 256 * data[2]!
    some ((parse_pairs (data.drop 3)).map
      (fun p => { network_address := network_address, msg_type := p.1, value := p.2 }))

/-- Modelled from the spec: the pair loop as §4.1 and §6 describe it —
"(messageType, value) pairs, two bytes at a time, stopping before the
final reserved byte", i.e. the last byte of the payload is excluded from
the pair loop entirely.  Used only to compare against the code's
`parse_status_event`. -/
def parse_status_event_specModel (data : List Nat) : Option (List DeviceStatus) :=
  if data.length < 6 then none
  else
    let network_address := data[1]! + 256 * data[2]!
    some ((parse_pairs ((data.take (data.length - 1)).drop 3)).map
      (fun p => { network_address := network_address, msg_type := p.1, value := p.2 }))

/-! ## Switch bit-packing (`protocol.py` lines 239-268) -/

/-- `encode_switch_value`: single-channel devices use `0x02`/`0x01`;
multi-channel devices use a 2-bit field per channel at bit position
`(channel - 1) * 2`, `0b10` on / `0b01` off. -/
def encode_switch_value (channels channel : Nat) (state : Bool) : Nat :=
  if channels = 1 then (if state then 0x02 else 0x01)
  else
    let channel_bits := if state then 0x02 else 0x01
    let bit_position := (channel - 1) * 2
    Nat.lor 0 (Nat.shiftLeft channel_bits bit_position)

/-- `decode_switch_value`: single-channel — on iff value is exactly
`0x02`; multi-channel — channel `c` is on iff its 2-bit field equals
`0b10`.  The Python dict keyed 1..channels is modelled as an association
list in the same order. -/
def decode_switch_value (value channels : Nat) : List (Nat × Bool) :=
  if channels = 1 then [(1, value = 0x02)]
  else (List.range channels).map (fun i =>
    let channel := i + 1
    let bit_position := (channel - 1) * 2
    let channel_bits := Nat.land (Nat.shiftRight value bit_position) 0x03
    (channel, channel_bits = 0x02))

/-! ## Device manager (`device_manager.py`)

Python `dict`s (`self.devices`, `self.device_states`, each per-device
state dict) are modelled as insertion-ordered association lists:
assignment replaces in place if the key exists and appends otherwise,
matching CPython dict semantics. -/

/-- Values stored in a per-device state dict: booleans for
`switch_<n>`, numbers for `brightness` / `color_temp`. -/
inductive StateValue where
  | boolVal : Bool → StateValue
  | natVal : Nat → StateValue
deriving DecidableEq, Repr

/-- Python `k in d`. -/
def hasKey {β : Type} (m : List (String × β)) (k : String) : Bool :=
  m.any (fun p => p.1 == k)

/-- Python `d.get(k)`. -/
def dictGet {β : Type} (m : List (String × β)) (k : String) : Option β :=
  (m.find? (fun p => p.1 == k)).map (fun p => p.2)

/-- Python `d[k] = v`: replace in place if present, append otherwise. -/
def dictInsert {β : Type} (m : List (String × β)) (k : String) (v : β) :
    List (String × β) :=
  if m.any (fun p => p.1 == k) then
    m.map (fun p => if p.1 == k then (k, v) else p)
  else m ++ [(k, v)]

/-- The mutable fields of `SymiDeviceManager`: `self.devices` and
`self.device_states`. -/
structure ManagerState where
  devices : List (String × SymiDevice)
  device_states : List (String × List (String × StateValue))
deriving DecidableEq, Repr

/-- `_update_device_state` (lines 282-286): create the per-device dict
if missing, then assign `key`. -/
def update_device_state (st : ManagerState) (device_id key : String)
    (value : StateValue) : ManagerState :=
  let states :=
    if hasKey st.device_states device_id then st.device_states
    else st.device_states ++ [(device_id, [])]
  { st with device_states :=
      states.map (fun p => if p.1 == device_id then (p.1, dictInsert p.2 key value) else p) }

/-- Read one key of one device's state dict (an observer used in theorem
statements, mirroring `self.device_states[device_id][key]`). -/
def state_get (st : ManagerState) (device_id key : String) : Option StateValue :=
  (dictGet st.device_states device_id).bind (fun m => dictGet m key)

/-- The body of the `for device in devices` loop in `discover_devices`
(lines 68-72): register the device under its identity key and initialize
an empty state entry if the key is new. -/
def register_device (st : ManagerState) (device : SymiDevice) : ManagerState :=
  { devices := dictInsert st.devices device.unique_id device,
    device_states :=
      if hasKey st.device_states device.unique_id then st.device_states
      else st.device_states ++ [(device.unique_id, [])] }

/-- `discover_devices` (lines 35-79).  The transport interaction is
abstracted as the inputs `connected` (value of `self.connection.connected`)
and `response_data` (what `self.connection.send_command` returned; `none`
models both a timeout and a send failure, and an empty byte string is
falsy in Python's `if not response_data`).  Returns the device list the
call returns together with the updated manager state. -/
def discover_devices (st : ManagerState) (connected : Bool)
    (response_data : Option (List Nat)) : List SymiDevice × ManagerState :=
  if !connected then ([], st)
  else
    match response_data with
    | none => ([], st)
    | some rd =>
      if rd.isEmpty then ([], st)
      else
        match parse_response rd with
        | none => ([], st)
        | some response =>
          if response.opcode ≠ OP_DEVICE_LIST_RESPONSE then ([], st)
          else if response.status ≠ RESULT_CMD_OK then ([], st)
          else
            let devices := parse_device_list response.data
            (devices, devices.foldl register_device st)

/-- `control_switch` (lines 81-119).  `response_data` is what
`send_command` returned: `none` models a timeout, a send error, and in
particular the `bytes()` conversion failure for encoded values ≥ 256
(all are caught and yield `None` in the source).  Returns the boolean
result together with the updated manager state. -/
def control_switch (st : ManagerState) (device_id : String) (channel : Nat)
    (state : Bool) (response_data : Option (List Nat)) : Bool × ManagerState :=
  match dictGet st.devices device_id with
  | none => (false, st)
  | some _device =>
    match response_data with
    | none => (false, st)
    | some rd =>
      if rd.isEmpty then (false, st)
      else
        match parse_response rd with
        | none => (false, st)
        | some response =>
          if response.status = RESULT_CMD_OK then
            (true, update_device_state st device_id
              (String.append "switch_" (toString channel)) (StateValue.boolVal state))
          else (false, st)

/-- The `for channel, state in switch_states.items()` inner loop of
`_handle_status_event` (lines 261-264): write `switch_<channel>` into
device state and record it in `updated_states`. -/
def apply_switch_pair (device_id : String)
    (acc : ManagerState × List (String × StateValue)) (cs : Nat × Bool) :
    ManagerState × List (String × StateValue) :=
  let key := String.append "switch_" (toString cs.1)
  (update_device_state acc.1 device_id key (StateValue.boolVal cs.2),
   dictInsert acc.2 key (StateValue.boolVal cs.2))

/-- One iteration of the `for status in statuses` loop of
`_handle_status_event` (lines 257-272), threading the manager state and
the `updated_states` dict. -/
def apply_status (device : SymiDevice)
    (acc : ManagerState × List (String × StateValue)) (status : DeviceStatus) :
    ManagerState × List (String × StateValue) :=
  if status.msg_type = MSG_TYPE_ON_OFF then
    (decode_switch_value status.value device.channels).foldl
      (apply_switch_pair device.unique_id) acc
  else if status.msg_type = MSG_TYPE_LIGHT_BRIGHTNESS then
    (update_device_state acc.1 device.unique_id "brightness" (StateValue.natVal status.value),
     dictInsert acc.2 "brightness" (StateValue.natVal status.value))
  else if status.msg_type = MSG_TYPE_LIGHT_COLOR_TEMP then
    (update_device_state acc.1 device.unique_id "color_temp" (StateValue.natVal status.value),
     dictInsert acc.2 "color_temp" (StateValue.natVal status.value))
  else acc

/-- `_handle_status_event` (lines 235-280): parse the event payload,
resolve the owning device by a linear scan over the registry in
insertion order, apply every status, and — when `updated_states` is
non-empty — emit one `(device_id, updated_states)` notification, which
the callback loop then delivers to every registered callback.  Returns
the updated state and the emitted notification, if any. -/
def handle_status_event (st : ManagerState) (data : List Nat) :
    ManagerState × Option (String × List (String × StateValue)) :=
  match parse_status_event data with
  | none => (st, none)
  | some [] => (st, none)
  | some (s0 :: rest) =>
    match st.devices.find? (fun p => p.2.network_address == s0.network_address) with
    | none => (st, none)
    | some pdev =>
      let device := pdev.2
      let out := (s0 :: rest).foldl (apply_status device) (st, [])
      if out.2.isEmpty then (out.1, none)
      else (out.1, some (device.unique_id, out.2))

/-- The semantic state keys that one decoded status contributes in
`_handle_status_event` (lines 257-272): one `switch_<channel>` key per
channel decoded from the switch bitfield for the on/off message type,
`brightness` / `color_temp` for the light message types, and nothing for
an unrecognized message type.  An observer used in theorem statements. -/
def status_keys (device : SymiDevice) (status : DeviceStatus) : List String :=
  if status.msg_type = MSG_TYPE_ON_OFF then
    (decode_switch_value status.value device.channels).map
      (fun cs => String.append "switch_" (toString cs.1))
  else if status.msg_type = MSG_TYPE_LIGHT_BRIGHTNESS then ["brightness"]
  else if status.msg_type = MSG_TYPE_LIGHT_COLOR_TEMP then ["color_temp"]
  else []

/-! ## Concrete fixtures used by witnesses and counterexamples -/

/-- A previously-discovered device whose MAC is absent from the next
discovery response. -/
def staleDevice : SymiDevice :=
  { mac_address := "aa:bb:cc:dd:ee:ff", network_address := 1, device_type := 1,
    device_subtype := 1, rssi := 0, vendor_id := 0, extended_data := [0, 0, 0, 0] }

/-- Manager state holding only `staleDevice`. -/
def staleState : ManagerState :=
  { devices := [("aabbccddeeff", staleDevice)],
    device_states := [("aabbccddeeff", [])] }

/-- A discovery response (opcode `0x92`, status `0x00`) carrying exactly
one 16-byte record for MAC `11:22:33:44:55:66`. -/
def discoveryResponseBytes : List Nat :=
  [0x53, 0x92, 0x00, 16] ++
  [0x11, 0x22, 0x33, 0x44, 0x55, 0x66, 2, 0, 1, 1, 10, 0, 0, 0, 0, 0]

/-- The parsed form of `discoveryResponseBytes`. -/
def discoveryResponse : ParsedResponse :=
  { opcode := 0x92, status := 0x00, length := 16,
    data := [0x11, 0x22, 0x33, 0x44, 0x55, 0x66, 2, 0, 1, 1, 10, 0, 0, 0, 0, 0] }

/-- A brightness-capable device at network address `0x1234`. -/
def lampDevice : SymiDevice :=
  { mac_address := "aa:bb:cc:dd:ee:ff", network_address := 0x1234, device_type := 4,
    device_subtype := 0, rssi := 0, vendor_id := 0, extended_data := [0, 0, 0, 0] }

/-- Manager state in which `lampDevice`'s brightness is already 50. -/
def lampState : ManagerState :=
  { devices := [("aabbccddeeff", lampDevice)],
    device_states := [("aabbccddeeff", [("brightness", StateValue.natVal 50)])] }

/-- Status-event payload reporting brightness 50 for address `0x1234`. -/
def brightnessEventPayload : List Nat := [0x00, 0x34, 0x12, 0x03, 50, 0x00]

/-! ## Dictionary lemmas -/

theorem find?_eq_none_of_not_hasKey {β : Type} (m : List (String × β)) (k : String)
    (h : hasKey m k = false) : m.find? (fun p => p.1 == k) = none := by
  rw [List.find?_eq_none]
  intro x hx hbx
  have ht : m.any (fun p => p.1 == k) = true := List.any_eq_true.mpr ⟨x, hx, hbx⟩
  rw [hasKey] at h
  rw [h] at ht
  exact Bool.false_ne_true ht

theorem find?_isSome_of_hasKey {β : Type} (m : List (String × β)) (k : String)
    (h : hasKey m k = true) : (m.find? (fun p => p.1 == k)).isSome := by
  rw [List.find?_isSome]
  exact List.any_eq_true.mp h

theorem hasKey_dictInsert_self {β : Type} (m : List (String × β)) (k : String) (v : β) :
    hasKey (dictInsert m k v) k = true := by
  by_cases h : m.any (fun p => p.1 == k)
  · obtain ⟨x, hx, hbeq⟩ := List.any_eq_true.mp h
    refine List.any_eq_true.mpr ⟨(k, v), ?_, beq_self_eq_true k⟩
    simp only [dictInsert, h, if_true]
    refine List.mem_map.mpr ⟨x, hx, ?_⟩
    simp [hbeq]
  · simp [dictInsert, h, hasKey, List.any_append]

theorem hasKey_dictInsert_mono {β : Type} (m : List (String × β)) (k k' : String) (v : β)
    (h : hasKey m k' = true) : hasKey (dictInsert m k v) k' = true := by
  by_cases hm : m.any (fun p => p.1 == k)
  · obtain ⟨x, hx, hbeq⟩ := List.any_eq_true.mp h
    refine List.any_eq_true.mpr ⟨(fun p => if p.1 == k then (k, v) else p) x, ?_, ?_⟩
    · simp only [dictInsert, hm, if_true]
      exact List.mem_map_of_mem _ hx
    · by_cases hx1 : (x.1 == k)
      · have hk : x.1 = k := eq_of_beq hx1
        simp only [hx1, if_true]
        simpa [← hk] using hbeq
      · simp only [hx1]
        simpa using hbeq
  · have h' : hasKey m k' = true := h
    simp only [dictInsert, hm, if_false, hasKey, List.any_append]
    rw [hasKey] at h'
    simp [h']

theorem dictGet_map_insert {β : Type} (k : String) (v : β) :
    ∀ (m : List (String × β)), m.any (fun p => p.1 == k) = true →
      dictGet (m.map (fun p => if p.1 == k then (k, v) else p)) k = some v := by
  intro m
  induction m with
  | nil => simp
  | cons p tl ih =>
    intro h
    by_cases hp : (p.1 == k)
    · have hk : p.1 = k := eq_of_beq hp
      simp [dictGet, List.find?_cons, hk]
    · have hk : p.1 ≠ k := fun he => absurd (by simp [he] : (p.1 == k) = true) (by simp [hp])
      have htl : tl.any (fun q => q.1 == k) = true := by
        have := h
        rw [List.any_cons] at this
        simpa [hp] using this
      have := ih htl
      simpa [dictGet, List.find?_cons, hp, hk] using this

theorem dictGet_dictInsert_self {β : Type} (m : List (String × β)) (k : String) (v : β) :
    dictGet (dictInsert m k v) k = some v := by
  by_cases h : m.any (fun p => p.1 == k)
  · simpa [dictInsert, h] using dictGet_map_insert k v m h
  · have hnone : m.find? (fun p => p.1 == k) = none :=
      find?_eq_none_of_not_hasKey m k (by rw [hasKey]; exact Bool.eq_false_iff.mpr h)
    simp [dictInsert, h, dictGet, List.find?_append, hnone, List.find?_cons]

theorem dictGet_append_left {β : Type} (m l : List (String × β)) (k : String)
    (h : hasKey m k = true) : dictGet (m ++ l) k = dictGet m k := by
  obtain ⟨y, hy⟩ := Option.isSome_iff_exists.mp (find?_isSome_of_hasKey m k h)
  simp [dictGet, List.find?_append, hy]

theorem dictGet_append_fresh {β : Type} (m : List (String × β)) (k : String) (v : β)
    (h : hasKey m k = false) : dictGet (m ++ [(k, v)]) k = some v := by
  have hnone : m.find? (fun p => p.1 == k) = none := find?_eq_none_of_not_hasKey m k h
  simp [dictGet, List.find?_append, hnone, List.find?_cons]

theorem hasKey_append_single {β : Type} (m : List (String × β)) (k0 k : String) (v : β) :
    hasKey (m ++ [(k0, v)]) k = (hasKey m k || (k0 == k)) := by
  simp [hasKey, List.any_append]

/-! ## Claim C8: exact command frames -/

/-- C8: the fully checksummed discovery command is exactly the bytes
`53 12 00 41 00`, and the fully checksummed control command for address
`0x0001`, message type `0x02`, value `0x02` is exactly
`53 30 04 01 00 02 02 66`, the trailing byte being the XOR of every
preceding byte of the frame. -/
theorem command_frame_bytes :
    full_command create_device_list_command = [0x53, 0x12, 0x00, 0x41, 0x00] ∧
    full_command (create_control_command 0x0001 0x02 0x02) =
      [0x53, 0x30, 0x04, 0x01, 0x00, 0x02, 0x02, 0x66] ∧
    calculate_checksum [0x53, 0x12, 0x00, 0x41] = 0x00 ∧
    calculate_checksum [0x53, 0x30, 0x04, 0x01, 0x00, 0x02, 0x02] = 0x66 := by
  decide

/-! ## Claim C7: switch bit round-trip -/

/-- C7: for channel counts in {1,2,4,6}, any channel in `[1, channels]`
and either commanded state, decoding the encoded switch value recovers
the commanded channel state. -/
theorem switch_value_roundtrip (channels channel : Nat) (b : Bool)
    (hc : channels = 1 ∨ channels = 2 ∨ channels = 4 ∨ channels = 6)
    (h1 : 1 ≤ channel) (h2 : channel ≤ channels) :
    List.lookup channel
      (decode_switch_value (encode_switch_value channels channel b) channels) = some b := by
  rcases hc with rfl | rfl | rfl | rfl <;> interval_cases channel <;> cases b <;> decide

/-- Witness for C7 at `channels = 2`, `channel = 2`, `on`. -/
theorem switch_value_roundtrip_witness :
    List.lookup 2 (decode_switch_value (encode_switch_value 2 2 true) 2) = some true :=
  switch_value_roundtrip 2 2 true (Or.inr (Or.inl rfl)) (by decide) (by decide)

/-! ## Claim C9: derived channel count -/

/-- C9: for switch device types (1 and 2) the channel count equals the
subtype when `1 ≤ subtype ≤ 6`, and is 1 when the subtype is 0 or
greater than 6; for every other device type it is 1. -/
theorem device_channels_derivation (d : SymiDevice) :
    ((d.device_type = 1 ∨ d.device_type = 2) →
      (1 ≤ d.device_subtype → d.device_subtype ≤ 6 → d.channels = d.device_subtype) ∧
      (d.device_subtype = 0 → d.channels = 1) ∧
      (6 < d.device_subtype → d.channels = 1)) ∧
    (¬(d.device_type = 1 ∨ d.device_type = 2) → d.channels = 1) := by
  constructor
  · intro hsw
    refine ⟨fun h1 h6 => ?_, fun h0 => ?_, fun h6 => ?_⟩ <;>
      unfold SymiDevice.channels <;> rw [if_pos hsw]
    · rw [if_pos h6]
      exact Nat.max_eq_right h1
    · rw [if_pos (by omega)]
      simp [h0]
    · rw [if_neg (by omega)]
  · intro hns
    unfold SymiDevice.channels
    rw [if_neg hns]

/-- Witness for C9 at a 3-gang switch (type 1, subtype 3) — channels 3. -/
theorem device_channels_derivation_witness :
    ({ mac_address := "", network_address := 0, device_type := 1, device_subtype := 3,
       rssi := 0, vendor_id := 0, extended_data := [] } : SymiDevice).channels = 3 :=
  (device_channels_derivation _).1 (Or.inl rfl) |>.1 (by decide) (by decide)

/-! ## Claim C10: encoded value formula and byte overflow -/

/-- C10: for `channels > 1` and `channel ≥ 1`, the encoded switch value
equals `(2 if on else 1) * 4^(channel-1)`; for `channel ≥ 5` it is at
least 256, so the control command containing it cannot be converted to
bytes (Python `bytes()` rejects values ≥ 256). -/
theorem encode_switch_value_formula_and_overflow
    (channels channel addr msg_type : Nat) (b : Bool)
    (hch : 1 < channels) (_h1 : 1 ≤ channel) :
    encode_switch_value channels channel b = (if b then 2 else 1) * 4 ^ (channel - 1) ∧
    (5 ≤ channel →
      256 ≤ encode_switch_value channels channel b ∧
      ¬ bytes_ok (full_command
        (create_control_command addr msg_type (encode_switch_value channels channel b)))) := by
  have hne : ¬ channels = 1 := by omega
  have hpow : encode_switch_value channels channel b = (if b then 2 else 1) * 4 ^ (channel - 1) := by
    have hshl : ∀ a c : Nat, Nat.shiftLeft a c = a * 2 ^ c := fun a c => Nat.shiftLeft_eq a c
    have hlor : ∀ n : Nat, Nat.lor 0 n = n := fun n => Nat.zero_or n
    unfold encode_switch_value
    rw [if_neg hne, hlor, hshl, mul_comm (channel - 1) 2, pow_mul]
    norm_num
  refine ⟨hpow, fun h5 => ?_⟩
  have hbig : 256 ≤ encode_switch_value channels channel b := by
    rw [hpow]
    calc (256 : Nat) = 1 * 4 ^ 4 := by norm_num
    _ ≤ (if b then 2 else 1) * 4 ^ (channel - 1) :=
        Nat.mul_le_mul (by cases b <;> simp) (Nat.pow_le_pow_right (by norm_num) (by omega))
  refine ⟨hbig, fun hok => ?_⟩
  have hmem : encode_switch_value channels channel b ∈
      full_command (create_control_command addr msg_type (encode_switch_value channels channel b)) := by
    unfold full_command create_control_command
    simp
  have := hok _ hmem
  omega

/-- Witness for C10 at `channels = 6`, `channel = 5`, on, address 1:
the encoded value is 512 and the frame cannot be converted to bytes. -/
theorem encode_switch_value_formula_and_overflow_witness :
    encode_switch_value 6 5 true = (if true then 2 else 1) * 4 ^ (5 - 1) ∧
    256 ≤ encode_switch_value 6 5 true ∧
    ¬ bytes_ok (full_command (create_control_command 1 MSG_TYPE_ON_OFF
      (encode_switch_value 6 5 true))) :=
  ⟨(encode_switch_value_formula_and_overflow 6 5 1 MSG_TYPE_ON_OFF true (by decide) (by decide)).1,
   ((encode_switch_value_formula_and_overflow 6 5 1 MSG_TYPE_ON_OFF true (by decide) (by decide)).2
     (by decide)).1,
   ((encode_switch_value_formula_and_overflow 6 5 1 MSG_TYPE_ON_OFF true (by decide) (by decide)).2
     (by decide)).2⟩

/-! ## Claim C4: `parse_response` failure condition and payload -/

/-- C4 (amended): `parse_response` fails exactly when the input has fewer
than 4 bytes or its first byte differs from `0x53`; on success the
payload is the slice `bytes[4 : 4 + length]` — exactly `length` bytes
whenever the input holds at least `4 + length` bytes, truncated
otherwise — and therefore never includes the checksum byte of a
complete frame. -/
theorem parse_response_failure_and_payload (data : List Nat) :
    (parse_response data = none ↔ (data.length < 4 ∨ data[0]! ≠ PROTOCOL_HEAD)) ∧
    (∀ r, parse_response data = some r →
      r.data = (data.drop 4).take r.length ∧
      r.data.length = min r.length (data.length - 4)) := by
  rcases data with _ | ⟨a, _ | ⟨b, _ | ⟨c, _ | ⟨d, rest⟩⟩⟩⟩
  · refine ⟨by simp [parse_response], fun r hr => by simp [parse_response] at hr⟩
  · refine ⟨by simp [parse_response], fun r hr => by simp [parse_response] at hr⟩
  · refine ⟨by simp [parse_response], fun r hr => by simp [parse_response] at hr⟩
  · refine ⟨by simp [parse_response], fun r hr => by simp [parse_response] at hr⟩
  · by_cases ha : a = PROTOCOL_HEAD
    · constructor
      · simp [parse_response, ha]
      · intro r hr
        simp [parse_response, ha] at hr
        subst hr
        simp [List.length_take]
    · constructor
      · simp [parse_response, ha]
      · intro r hr
        simp [parse_response, ha] at hr

/-- C4 counterexample: the input `53 B0 00 05` (4 bytes, declared length
5) parses successfully with an empty payload — not the "exactly
`length`" (5) bytes the claim requires. -/
theorem parse_response_truncated_payload_counterexample :
    parse_response [0x53, 0xB0, 0x00, 0x05] =
      some { opcode := 0xB0, status := 0x00, length := 0x05, data := [] } ∧
    ¬ (({ opcode := 0xB0, status := 0x00, length := 0x05, data := [] } :
        ParsedResponse).data.length =
       ({ opcode := 0xB0, status := 0x00, length := 0x05, data := [] } :
        ParsedResponse).length) := by
  decide

/-- Witness for C4 on the complete frame `53 B0 00 01 AA 99`:
payload `[0xAA]`, one byte, checksum excluded. -/
theorem parse_response_failure_and_payload_witness :
    ({ opcode := 0xB0, status := 0x00, length := 0x01, data := [0xAA] } :
      ParsedResponse).data =
      (([0x53, 0xB0, 0x00, 0x01, 0xAA, 0x99] : List Nat).drop 4).take 0x01 ∧
    ({ opcode := 0xB0, status := 0x00, length := 0x01, data := [0xAA] } :
      ParsedResponse).data.length =
      min 0x01 (([0x53, 0xB0, 0x00, 0x01, 0xAA, 0x99] : List Nat).length - 4) :=
  (parse_response_failure_and_payload [0x53, 0xB0, 0x00, 0x01, 0xAA, 0x99]).2
    { opcode := 0xB0, status := 0x00, length := 0x01, data := [0xAA] } (by decide)

/-! ## Claim C3: `parse_status_event` pair loop -/

theorem parse_pairs_drop_last_of_odd :
    ∀ (l : List Nat), l.length % 2 = 1 → parse_pairs l = parse_pairs (l.take (l.length - 1))
  | [] => fun h => by simp at h
  | [a] => fun _ => by simp [parse_pairs]
  | a :: b :: rest => fun h => by
    have hr : rest.length % 2 = 1 := by
      simp only [List.length_cons] at h
      omega
    have ih := parse_pairs_drop_last_of_odd rest hr
    have htake : (a :: b :: rest).take ((a :: b :: rest).length - 1)
        = a :: b :: rest.take (rest.length - 1) := by
      simp only [List.length_cons]
      have h2 : rest.length + 1 + 1 - 1 = (rest.length - 1) + 1 + 1 := by omega
      rw [h2, List.take_succ_cons, List.take_succ_cons]
    rw [htake]
    simp only [parse_pairs]
    exact congrArg _ ih

theorem parse_pairs_ne_nil (l : List Nat) (h : 2 ≤ l.length) : parse_pairs l ≠ [] := by
  rcases l with _ | ⟨a, _ | ⟨b, rest⟩⟩
  · simp at h
  · simp at h
  · simp [parse_pairs]

theorem parse_pairs_snd_getLast :
    ∀ (l : List Nat), l.length % 2 = 0 → l ≠ [] →
      ((parse_pairs l).map Prod.snd).getLast? = l.getLast?
  | [] => fun _ h => absurd rfl h
  | [a] => fun h _ => by simp at h
  | a :: b :: rest => fun h _ => by
    rcases eq_or_ne rest [] with hre | hre
    · subst hre
      simp [parse_pairs]
    · have hr : rest.length % 2 = 0 := by
        simp only [List.length_cons] at h
        omega
      have ih := parse_pairs_snd_getLast rest hr hre
      have h2 : 2 ≤ rest.length := by
        have h0 : rest.length ≠ 0 := fun h0 => hre (List.length_eq_zero.mp h0)
        omega
      have hpne : parse_pairs rest ≠ [] := parse_pairs_ne_nil rest h2
      simp only [parse_pairs, List.map_cons]
      have lhs_eq : (b :: (parse_pairs rest).map Prod.snd).getLast?
          = ((parse_pairs rest).map Prod.snd).getLast? := by
        rcases hm : (parse_pairs rest).map Prod.snd with _ | ⟨y, ys⟩
        · exact absurd (List.map_eq_nil_iff.mp hm) hpne
        · exact List.getLast?_cons_cons
      have rhs_eq : (a :: b :: rest).getLast? = rest.getLast? := by
        rcases rest with _ | ⟨c, cs⟩
        · exact absurd rfl hre
        · rw [List.getLast?_cons_cons, List.getLast?_cons_cons]
      rw [lhs_eq, ih, ← rhs_eq]

/-- C3 (amended): `parse_status_event` fails exactly for payloads under
6 bytes; the pair loop reads `(messageType, value)` pairs from byte 3
two at a time while at least two bytes remain, so the final byte is
excluded from the pairs exactly when the payload length is even, and for
odd-length payloads the final byte is consumed as the value of the last
pair. -/
theorem parse_status_event_pair_loop (d : List Nat) :
    (parse_status_event d = none ↔ d.length < 6) ∧
    (6 ≤ d.length → d.length % 2 = 0 →
      parse_status_event d = parse_status_event_specModel d) ∧
    (6 ≤ d.length → d.length % 2 = 1 →
      ∃ l, parse_status_event d = some l ∧
        (l.map DeviceStatus.value).getLast? = d.getLast?) := by
  refine ⟨?_, ?_, ?_⟩
  · by_cases h6 : d.length < 6
    · simp [parse_status_event, h6]
    · simp [parse_status_event, h6]
  · intro h6 hev
    have hlt : ¬ d.length < 6 := by omega
    have hsuffix : (d.drop 3).length % 2 = 1 := by
      simp only [List.length_drop]
      omega
    have hodd := parse_pairs_drop_last_of_odd (d.drop 3) hsuffix
    have hdt : (d.take (d.length - 1)).drop 3 = (d.drop 3).take ((d.drop 3).length - 1) := by
      rw [List.drop_take (d.length - 1) 3 d]
      congr 1
      simp only [List.length_drop]
      omega
    simp only [parse_status_event, parse_status_event_specModel, if_neg hlt]
    rw [hdt, ← hodd]
  · intro h6 hod
    have hlt : ¬ d.length < 6 := by omega
    refine ⟨(parse_pairs (d.drop 3)).map
      (fun p => { network_address := d[1]! + 256 * d[2]!, msg_type := p.1, value := p.2 }),
      ?_, ?_⟩
    · unfold parse_status_event
      rw [if_neg hlt]
    have heven : (d.drop 3).length % 2 = 0 := by
      simp only [List.length_drop]
      omega
    have hne : d.drop 3 ≠ [] := by
      intro hnil
      have := congrArg List.length hnil
      simp only [List.length_drop, List.length_nil] at this
      omega
    have hlast := parse_pairs_snd_getLast (d.drop 3) heven hne
    have hdlast : (d.drop 3).getLast? = d.getLast? := by
      conv_rhs => rw [← List.take_append_drop 3 d]
      exact (List.getLast?_append_of_ne_nil _ hne).symm
    rw [List.map_map]
    exact hlast.trans hdlast

/-- C3 counterexample: on the 7-byte payload `00 34 12 02 03 03 63` the
code's pair loop consumes the final byte `0x63` as the value of a second
pair, whereas the spec's "stop before the final reserved byte" loop
yields only one pair — the claim that the final byte is never consumed
is false. -/
theorem parse_status_event_final_byte_counterexample :
    parse_status_event [0x00, 0x34, 0x12, 0x02, 0x03, 0x03, 0x63] ≠
      parse_status_event_specModel [0x00, 0x34, 0x12, 0x02, 0x03, 0x03, 0x63] ∧
    parse_status_event [0x00, 0x34, 0x12, 0x02, 0x03, 0x03, 0x63] =
      some [{ network_address := 0x1234, msg_type := 0x02, value := 0x03 },
            { network_address := 0x1234, msg_type := 0x03, value := 0x63 }] := by
  decide

/-- Witness for C3 on a 6-byte (even) payload: the code agrees with the
spec's pair loop there, and a 5-byte payload fails. -/
theorem parse_status_event_pair_loop_witness :
    parse_status_event [0x00, 0x34, 0x12, 0x02, 0x03, 0x00] =
      parse_status_event_specModel [0x00, 0x34, 0x12, 0x02, 0x03, 0x00] ∧
    (parse_status_event [0x00, 0x34, 0x12, 0x02, 0x03] = none ↔
      ([0x00, 0x34, 0x12, 0x02, 0x03] : List Nat).length < 6) :=
  ⟨(parse_status_event_pair_loop [0x00, 0x34, 0x12, 0x02, 0x03, 0x00]).2.1
      (by decide) (by decide),
   (parse_status_event_pair_loop [0x00, 0x34, 0x12, 0x02, 0x03]).1⟩

/-! ## Claim C1: discovery updates the registry by merging -/

theorem register_devices_hasKey_mono (st : ManagerState) (d : SymiDevice) (k : String)
    (h : hasKey st.devices k = true) : hasKey (register_device st d).devices k = true :=
  hasKey_dictInsert_mono _ _ _ _ h

theorem register_devices_hasKey_self (st : ManagerState) (d : SymiDevice) :
    hasKey (register_device st d).devices d.unique_id = true :=
  hasKey_dictInsert_self _ _ _

theorem register_states_pres (st : ManagerState) (d : SymiDevice) (k : String)
    (h : hasKey st.device_states k = true) :
    hasKey (register_device st d).device_states k = true ∧
    dictGet (register_device st d).device_states k = dictGet st.device_states k := by
  unfold register_device
  by_cases hk : hasKey st.device_states d.unique_id = true
  · rw [if_pos hk]
    exact ⟨h, rfl⟩
  · rw [if_neg hk]
    constructor
    · rw [hasKey_append_single]
      simp [h]
    · exact dictGet_append_left _ _ _ h

theorem register_states_fresh (st : ManagerState) (d : SymiDevice)
    (h : hasKey st.device_states d.unique_id = false) :
    dictGet (register_device st d).device_states d.unique_id = some [] := by
  unfold register_device
  rw [if_neg (by simp [h])]
  exact dictGet_append_fresh _ _ _ h

theorem register_states_hasKey_self (st : ManagerState) (d : SymiDevice) :
    hasKey (register_device st d).device_states d.unique_id = true := by
  unfold register_device
  by_cases hk : hasKey st.device_states d.unique_id = true
  · rw [if_pos hk]
    exact hk
  · rw [if_neg hk, hasKey_append_single]
    simp

theorem register_states_hasKey_other (st : ManagerState) (d : SymiDevice) (k : String)
    (hne : (d.unique_id == k) = false) :
    hasKey (register_device st d).device_states k = hasKey st.device_states k := by
  unfold register_device
  by_cases hk : hasKey st.device_states d.unique_id = true
  · rw [if_pos hk]
  · rw [if_neg hk, hasKey_append_single, hne]
    simp

theorem foldl_register_devices_mono :
    ∀ (l : List SymiDevice) (st : ManagerState) (k : String),
      hasKey st.devices k = true → hasKey (l.foldl register_device st).devices k = true
  | [] => fun _ _ h => h
  | d :: tl => fun st k h =>
    foldl_register_devices_mono tl (register_device st d) k
      (register_devices_hasKey_mono st d k h)

theorem foldl_register_devices_mem :
    ∀ (l : List SymiDevice) (st : ManagerState) (d : SymiDevice), d ∈ l →
      hasKey (l.foldl register_device st).devices d.unique_id = true
  | [] => fun _ _ h => absurd h (List.not_mem_nil _)
  | d0 :: tl => fun st d hd => by
    rcases List.mem_cons.mp hd with rfl | hmem
    · exact foldl_register_devices_mono tl _ _ (register_devices_hasKey_self st d)
    · exact foldl_register_devices_mem tl _ d hmem

theorem foldl_register_states_pres :
    ∀ (l : List SymiDevice) (st : ManagerState) (k : String),
      hasKey st.device_states k = true →
      hasKey (l.foldl register_device st).device_states k = true ∧
      dictGet (l.foldl register_device st).device_states k = dictGet st.device_states k
  | [] => fun _ _ h => ⟨h, rfl⟩
  | d :: tl => fun st k h => by
    have hstep := register_states_pres st d k h
    have hrec := foldl_register_states_pres tl (register_device st d) k hstep.1
    exact ⟨hrec.1, hrec.2.trans hstep.2⟩

theorem foldl_register_states_mem :
    ∀ (l : List SymiDevice) (st : ManagerState) (d : SymiDevice), d ∈ l →
      hasKey (l.foldl register_device st).device_states d.unique_id = true
  | [] => fun _ _ h => absurd h (List.not_mem_nil _)
  | d0 :: tl => fun st d hd => by
    rcases List.mem_cons.mp hd with rfl | hmem
    · exact (foldl_register_states_pres tl _ _ (register_states_hasKey_self st d)).1
    · exact foldl_register_states_mem tl _ d hmem

theorem foldl_register_states_fresh :
    ∀ (l : List SymiDevice) (st : ManagerState) (d : SymiDevice), d ∈ l →
      hasKey st.device_states d.unique_id = false →
      dictGet (l.foldl register_device st).device_states d.unique_id = some []
  | [] => fun _ _ h _ => absurd h (List.not_mem_nil _)
  | d0 :: tl => fun st d hd hfresh => by
    rcases List.mem_cons.mp hd with rfl | hmem
    · have h1 := register_states_fresh st d hfresh
      have h2 := register_states_hasKey_self st d
      have hrec := foldl_register_states_pres tl (register_device st d) d.unique_id h2
      exact hrec.2.trans h1
    · by_cases he : (d0.unique_id == d.unique_id) = true
      · have hk : d0.unique_id = d.unique_id := eq_of_beq he
        have h1 : dictGet (register_device st d0).device_states d.unique_id = some [] := by
          rw [← hk]
          exact register_states_fresh st d0 (by rw [hk]; exact hfresh)
        have h2 : hasKey (register_device st d0).device_states d.unique_id = true := by
          rw [← hk]
          exact register_states_hasKey_self st d0
        have hrec := foldl_register_states_pres tl (register_device st d0) d.unique_id h2
        exact hrec.2.trans h1
      · have hne : (d0.unique_id == d.unique_id) = false := Bool.eq_false_iff.mpr he
        have hstill : hasKey (register_device st d0).device_states d.unique_id = false := by
          rw [register_states_hasKey_other st d0 _ hne]
          exact hfresh
        exact foldl_register_states_fresh tl _ d hmem hstill

/-- C1 (amended): after a successful discovery (response opcode `0x92`,
status `0x00`), every device parsed from the response is registered and
has a device-state entry — an empty one if its identity key is new — and
pre-existing state entries keep their values; but the registry is
updated by MERGING, not wholesale replacement: every identity key
registered before the call remains registered afterwards, even when it
is absent from the response. -/
theorem discover_devices_merges_registry (st : ManagerState) (rd : List Nat)
    (response : ParsedResponse)
    (hparse : parse_response rd = some response)
    (hop : response.opcode = OP_DEVICE_LIST_RESPONSE)
    (hst : response.status = RESULT_CMD_OK) :
    (discover_devices st true (some rd)).1 = parse_device_list response.data ∧
    (∀ k, hasKey st.devices k = true →
      hasKey (discover_devices st true (some rd)).2.devices k = true) ∧
    (∀ d ∈ (discover_devices st true (some rd)).1,
      hasKey (discover_devices st true (some rd)).2.devices d.unique_id = true ∧
      hasKey (discover_devices st true (some rd)).2.device_states d.unique_id = true) ∧
    (∀ d ∈ (discover_devices st true (some rd)).1,
      hasKey st.device_states d.unique_id = false →
      dictGet (discover_devices st true (some rd)).2.device_states d.unique_id = some []) ∧
    (∀ k, hasKey st.device_states k = true →
      dictGet (discover_devices st true (some rd)).2.device_states k
        = dictGet st.device_states k) := by
  have hne : rd.isEmpty = false := by
    rcases rd with _ | ⟨x, xs⟩
    · simp [parse_response] at hparse
    · rfl
  have hred : discover_devices st true (some rd) =
      (parse_device_list response.data,
       (parse_device_list response.data).foldl register_device st) := by
    simp [discover_devices, hne, hparse, hop, hst]
  rw [hred]
  refine ⟨rfl, ?_, ?_, ?_, ?_⟩
  · intro k hk
    exact foldl_register_devices_mono _ st k hk
  · intro d hd
    exact ⟨foldl_register_devices_mem _ st d hd, foldl_register_states_mem _ st d hd⟩
  · intro d hd hfresh
    exact foldl_register_states_fresh _ st d hd hfresh
  · intro k hk
    exact (foldl_register_states_pres _ st k hk).2

/-- C1 counterexample: starting from a registry holding only identity
key `aabbccddeeff`, a successful discovery response containing exactly
one device with identity key `112233445566` leaves `aabbccddeeff`
registered — the registry is not replaced wholesale as the claim
states. -/
theorem discover_devices_not_wholesale :
    (discover_devices staleState true (some discoveryResponseBytes)).1.map
      SymiDevice.unique_id = ["112233445566"] ∧
    hasKey (discover_devices staleState true (some discoveryResponseBytes)).2.devices
      "aabbccddeeff" = true := by
  decide

/-- Witness for C1 (amended) on the concrete stale registry and
single-device discovery response. -/
theorem discover_devices_merges_registry_witness :
    hasKey (discover_devices staleState true (some discoveryResponseBytes)).2.devices
      "aabbccddeeff" = true ∧
    (discover_devices staleState true (some discoveryResponseBytes)).1
      = parse_device_list discoveryResponse.data :=
  ⟨(discover_devices_merges_registry staleState discoveryResponseBytes discoveryResponse
      (by decide) (by decide) (by decide)).2.1 "aabbccddeeff" (by decide),
   (discover_devices_merges_registry staleState discoveryResponseBytes discoveryResponse
      (by decide) (by decide) (by decide)).1⟩

/-! ## Claim C5: `control_switch` state discipline -/

theorem dictGet_mapEntry {β : Type} (states : List (String × β)) (id : String) (f : β → β) :
    dictGet (states.map (fun p => if p.1 == id then (p.1, f p.2) else p)) id
      = (dictGet states id).map f := by
  induction states with
  | nil => simp [dictGet]
  | cons p tl ih =>
    by_cases hp : (p.1 == id) = true
    · have he : p.1 = id := eq_of_beq hp
      simp [dictGet, List.find?_cons, he]
    · have hp' : (p.1 == id) = false := Bool.eq_false_iff.mpr hp
      simp only [List.map_cons, hp', Bool.false_eq_true, if_false]
      simp only [dictGet, List.find?_cons, hp', Bool.false_eq_true, if_false] at ih ⊢
      exact ih

theorem update_state_get_self (st : ManagerState) (id key : String) (v : StateValue) :
    state_get (update_device_state st id key v) id key = some v := by
  unfold update_device_state state_get
  by_cases hk : hasKey st.device_states id = true
  · simp only [if_pos hk]
    rw [dictGet_mapEntry st.device_states id (fun m => dictInsert m key v)]
    obtain ⟨y, hy⟩ := Option.isSome_iff_exists.mp (find?_isSome_of_hasKey _ _ hk)
    have hdg : dictGet st.device_states id = some y.2 := by
      unfold dictGet
      rw [hy]
      rfl
    rw [hdg]
    exact dictGet_dictInsert_self _ _ _
  · simp only [if_neg hk]
    have hfalse : hasKey st.device_states id = false := Bool.eq_false_iff.mpr hk
    rw [dictGet_mapEntry (st.device_states ++ [(id, [])]) id (fun m => dictInsert m key v)]
    rw [dictGet_append_fresh _ _ _ hfalse]
    exact dictGet_dictInsert_self _ _ _

/-- C5: `control_switch` returns failure and leaves the manager state
untouched when the device id is unknown, when no response arrives
(timeout / send failure), when the response cannot be parsed, or when
the response status is not `0x00`; only on a success-status response
does it return success, setting `switch_<channel>` to the commanded
boolean. -/
theorem control_switch_spec (st : ManagerState) (device_id : String) (channel : Nat)
    (state : Bool) (ro : Option (List Nat)) :
    (dictGet st.devices device_id = none →
      control_switch st device_id channel state ro = (false, st)) ∧
    (ro = none → control_switch st device_id channel state ro = (false, st)) ∧
    (∀ rd, ro = some rd → parse_response rd = none →
      control_switch st device_id channel state ro = (false, st)) ∧
    (∀ rd response, ro = some rd → parse_response rd = some response →
      response.status ≠ RESULT_CMD_OK →
      control_switch st device_id channel state ro = (false, st)) ∧
    (∀ rd response device, dictGet st.devices device_id = some device →
      ro = some rd → parse_response rd = some response →
      response.status = RESULT_CMD_OK →
      control_switch st device_id channel state ro =
        (true, update_device_state st device_id
          (String.append "switch_" (toString channel)) (StateValue.boolVal state)) ∧
      state_get (control_switch st device_id channel state ro).2 device_id
        (String.append "switch_" (toString channel)) = some (StateValue.boolVal state)) := by
  refine ⟨?_, ?_, ?_, ?_, ?_⟩
  · intro h
    simp [control_switch, h]
  · intro h
    subst h
    cases hd : dictGet st.devices device_id <;> simp [control_switch, hd]
  · intro rd hro hp
    subst hro
    have hre : rd.isEmpty = true ∨ rd.isEmpty = false := by
      cases rd.isEmpty
      · exact Or.inr rfl
      · exact Or.inl rfl
    cases hd : dictGet st.devices device_id
    · simp [control_switch, hd]
    · rcases hre with hre | hre <;> simp [control_switch, hd, hre, hp]
  · intro rd response hro hp hstatus
    subst hro
    have hne : rd.isEmpty = false := by
      rcases rd with _ | ⟨x, xs⟩
      · simp [parse_response] at hp
      · rfl
    cases hd : dictGet st.devices device_id
    · simp [control_switch, hd]
    · simp [control_switch, hd, hne, hp, hstatus]
  · intro rd response device hd hro hp hstatus
    subst hro
    have hne : rd.isEmpty = false := by
      rcases rd with _ | ⟨x, xs⟩
      · simp [parse_response] at hp
      · rfl
    have hred : control_switch st device_id channel state (some rd) =
        (true, update_device_state st device_id
          (String.append "switch_" (toString channel)) (StateValue.boolVal state)) := by
      simp [control_switch, hd, hne, hp, hstatus]
    refine ⟨hred, ?_⟩
    rw [hred]
    exact update_state_get_self st device_id
      (String.append "switch_" (toString channel)) (StateValue.boolVal state)

/-- Witness for C5: concrete success and failure runs against the stale
one-device registry. -/
theorem control_switch_spec_witness :
    control_switch staleState "aabbccddeeff" 1 true (some [0x53, 0xB0, 0x01, 0x00, 0xE2]) =
      (false, staleState) ∧
    control_switch staleState "aabbccddeeff" 1 true (some [0x53, 0xB0, 0x00, 0x00, 0xE3]) =
      (true, update_device_state staleState "aabbccddeeff"
        (String.append "switch_" (toString 1)) (StateValue.boolVal true)) :=
  ⟨(control_switch_spec staleState "aabbccddeeff" 1 true
      (some [0x53, 0xB0, 0x01, 0x00, 0xE2])).2.2.2.1
      [0x53, 0xB0, 0x01, 0x00, 0xE2]
      { opcode := 0xB0, status := 0x01, length := 0x00, data := [] }
      rfl (by decide) (by decide),
   ((control_switch_spec staleState "aabbccddeeff" 1 true
      (some [0x53, 0xB0, 0x00, 0x00, 0xE3])).2.2.2.2
      [0x53, 0xB0, 0x00, 0x00, 0xE3]
      { opcode := 0xB0, status := 0x00, length := 0x00, data := [] }
      staleDevice (by decide) rfl (by decide) rfl).1⟩

/-! ## Claim C6: status-event notifications -/

theorem apply_switch_pair_foldl_snd :
    ∀ (l : List (Nat × Bool)) (id : String) (s s' : ManagerState)
      (u : List (String × StateValue)),
      (l.foldl (apply_switch_pair id) (s, u)).2 = (l.foldl (apply_switch_pair id) (s', u)).2
  | [] => fun _ _ _ _ => rfl
  | cs :: tl => fun id s s' u => by
    simp only [List.foldl_cons, apply_switch_pair]
    exact apply_switch_pair_foldl_snd tl id _ _ _

theorem apply_status_snd (dev : SymiDevice) (x : DeviceStatus) (s s' : ManagerState)
    (u : List (String × StateValue)) :
    (apply_status dev (s, u) x).2 = (apply_status dev (s', u) x).2 := by
  unfold apply_status
  by_cases h1 : x.msg_type = MSG_TYPE_ON_OFF
  · simp only [if_pos h1]
    exact apply_switch_pair_foldl_snd _ _ _ _ _
  · by_cases h2 : x.msg_type = MSG_TYPE_LIGHT_BRIGHTNESS
    · simp [h1, h2, MSG_TYPE_ON_OFF, MSG_TYPE_LIGHT_BRIGHTNESS]
    · by_cases h3 : x.msg_type = MSG_TYPE_LIGHT_COLOR_TEMP
      · simp [h1, h2, h3, MSG_TYPE_ON_OFF, MSG_TYPE_LIGHT_BRIGHTNESS,
          MSG_TYPE_LIGHT_COLOR_TEMP]
      · simp [h1, h2, h3]

theorem apply_status_foldl_snd :
    ∀ (statuses : List DeviceStatus) (dev : SymiDevice) (s s' : ManagerState)
      (u : List (String × StateValue)),
      (statuses.foldl (apply_status dev) (s, u)).2
        = (statuses.foldl (apply_status dev) (s', u)).2
  | [] => fun _ _ _ _ => rfl
  | x :: tl => fun dev s s' u => by
    have hsnd := apply_status_snd dev x s s' u
    have hB : ((apply_status dev (s', u) x).1, (apply_status dev (s, u) x).2)
        = apply_status dev (s', u) x := by
      rw [hsnd]
    simp only [List.foldl_cons]
    calc (tl.foldl (apply_status dev) (apply_status dev (s, u) x)).2
        = (tl.foldl (apply_status dev)
            ((apply_status dev (s', u) x).1, (apply_status dev (s, u) x).2)).2 :=
          apply_status_foldl_snd tl dev (apply_status dev (s, u) x).1
            (apply_status dev (s', u) x).1 (apply_status dev (s, u) x).2
      _ = (tl.foldl (apply_status dev) (apply_status dev (s', u) x)).2 := by rw [hB]

theorem notify_pair_snd (uid : String) (o1 o2 : ManagerState × List (String × StateValue))
    (h : o1.2 = o2.2) :
    (if o1.2.isEmpty then (o1.1, (none : Option (String × List (String × StateValue))))
      else (o1.1, some (uid, o1.2))).2 =
    (if o2.2.isEmpty then (o2.1, (none : Option (String × List (String × StateValue))))
      else (o2.1, some (uid, o2.2))).2 := by
  rw [h]
  by_cases hc : o2.2.isEmpty = true
  · simp [hc]
  · simp [hc]

theorem notify_pair_snd_ne_nil (uid : String) (o : ManagerState × List (String × StateValue))
    (id : String) (upd : List (String × StateValue))
    (h : (if o.2.isEmpty then (o.1, (none : Option (String × List (String × StateValue))))
      else (o.1, some (uid, o.2))).2 = some (id, upd)) : upd ≠ [] := by
  by_cases hc : o.2.isEmpty = true
  · rw [if_pos hc] at h
    simp at h
  · rw [if_neg hc] at h
    simp only [] at h
    have h' : some (uid, o.2) = some (id, upd) := h
    have h2 : o.2 = upd := by
      have := Option.some.inj h'
      exact congrArg Prod.snd this
    rw [← h2]
    intro hnil
    rw [hnil] at hc
    exact hc rfl

theorem hasKey_ne_nil {β : Type} (u : List (String × β)) (k : String)
    (h : hasKey u k = true) : u ≠ [] := by
  intro hnil
  rw [hnil] at h
  simp [hasKey] at h

theorem apply_switch_pair_foldl_hasKey_mono :
    ∀ (l : List (Nat × Bool)) (id k : String) (s : ManagerState)
      (u : List (String × StateValue)), hasKey u k = true →
      hasKey (l.foldl (apply_switch_pair id) (s, u)).2 k = true
  | [] => fun _ _ _ _ h => h
  | cs :: tl => fun id k s u h => by
    simp only [List.foldl_cons, apply_switch_pair]
    exact apply_switch_pair_foldl_hasKey_mono tl id k _ _
      (hasKey_dictInsert_mono _ _ _ _ h)

theorem apply_switch_pair_foldl_hasKey_mem :
    ∀ (l : List (Nat × Bool)) (id : String) (cs : Nat × Bool) (s : ManagerState)
      (u : List (String × StateValue)), cs ∈ l →
      hasKey (l.foldl (apply_switch_pair id) (s, u)).2
        (String.append "switch_" (toString cs.1)) = true
  | [] => fun _ _ _ _ h => absurd h (List.not_mem_nil _)
  | c0 :: tl => fun id cs s u h => by
    rcases List.mem_cons.mp h with rfl | hmem
    · simp only [List.foldl_cons, apply_switch_pair]
      exact apply_switch_pair_foldl_hasKey_mono tl id _ _ _ (hasKey_dictInsert_self _ _ _)
    · simp only [List.foldl_cons]
      exact apply_switch_pair_foldl_hasKey_mem tl id cs _ _ hmem

theorem apply_status_hasKey_mono (dev : SymiDevice) (x : DeviceStatus) (k : String)
    (s : ManagerState) (u : List (String × StateValue)) (h : hasKey u k = true) :
    hasKey (apply_status dev (s, u) x).2 k = true := by
  unfold apply_status
  by_cases h1 : x.msg_type = MSG_TYPE_ON_OFF
  · simp only [if_pos h1]
    exact apply_switch_pair_foldl_hasKey_mono _ _ _ _ _ h
  · by_cases h2 : x.msg_type = MSG_TYPE_LIGHT_BRIGHTNESS
    · simp only [if_neg h1, if_pos h2]
      exact hasKey_dictInsert_mono _ _ _ _ h
    · by_cases h3 : x.msg_type = MSG_TYPE_LIGHT_COLOR_TEMP
      · simp only [if_neg h1, if_neg h2, if_pos h3]
        exact hasKey_dictInsert_mono _ _ _ _ h
      · simp only [if_neg h1, if_neg h2, if_neg h3]
        exact h

theorem apply_status_hasKey_keys (dev : SymiDevice) (x : DeviceStatus) (k : String)
    (s : ManagerState) (u : List (String × StateValue)) (hk : k ∈ status_keys dev x) :
    hasKey (apply_status dev (s, u) x).2 k = true := by
  unfold status_keys at hk
  unfold apply_status
  by_cases h1 : x.msg_type = MSG_TYPE_ON_OFF
  · simp only [if_pos h1] at hk ⊢
    obtain ⟨cs, hcs, rfl⟩ := List.mem_map.mp hk
    exact apply_switch_pair_foldl_hasKey_mem _ _ cs _ _ hcs
  · by_cases h2 : x.msg_type = MSG_TYPE_LIGHT_BRIGHTNESS
    · simp only [if_neg h1, if_pos h2] at hk ⊢
      have hb : k = "brightness" := List.mem_singleton.mp hk
      subst hb
      exact hasKey_dictInsert_self _ _ _
    · by_cases h3 : x.msg_type = MSG_TYPE_LIGHT_COLOR_TEMP
      · simp only [if_neg h1, if_neg h2, if_pos h3] at hk ⊢
        have hb : k = "color_temp" := List.mem_singleton.mp hk
        subst hb
        exact hasKey_dictInsert_self _ _ _
      · simp only [if_neg h1, if_neg h2, if_neg h3] at hk
        exact absurd hk (List.not_mem_nil _)

theorem apply_status_foldl_hasKey_mono :
    ∀ (statuses : List DeviceStatus) (dev : SymiDevice) (k : String) (s : ManagerState)
      (u : List (String × StateValue)), hasKey u k = true →
      hasKey ((statuses.foldl (apply_status dev) (s, u)).2) k = true
  | [] => fun _ _ _ _ h => h
  | x :: tl => fun dev k s u h => by
    simp only [List.foldl_cons]
    exact apply_status_foldl_hasKey_mono tl dev k (apply_status dev (s, u) x).1
      (apply_status dev (s, u) x).2 (apply_status_hasKey_mono dev x k s u h)

theorem apply_status_foldl_hasKey_keys :
    ∀ (statuses : List DeviceStatus) (dev : SymiDevice) (x : DeviceStatus) (k : String)
      (s : ManagerState) (u : List (String × StateValue)),
      x ∈ statuses → k ∈ status_keys dev x →
      hasKey ((statuses.foldl (apply_status dev) (s, u)).2) k = true
  | [] => fun _ _ _ _ _ h _ => absurd h (List.not_mem_nil _)
  | x0 :: tl => fun dev x k s u hmem hk => by
    rcases List.mem_cons.mp hmem with rfl | hmem'
    · simp only [List.foldl_cons]
      exact apply_status_foldl_hasKey_mono tl dev k _ _
        (apply_status_hasKey_keys dev x k s u hk)
    · simp only [List.foldl_cons]
      exact apply_status_foldl_hasKey_keys tl dev x k _ _ hmem' hk

theorem apply_status_unrecognized (dev : SymiDevice) (x : DeviceStatus)
    (acc : ManagerState × List (String × StateValue)) (h : status_keys dev x = []) :
    apply_status dev acc x = acc := by
  unfold status_keys at h
  unfold apply_status
  by_cases h1 : x.msg_type = MSG_TYPE_ON_OFF
  · simp only [if_pos h1] at h ⊢
    rw [List.map_eq_nil_iff.mp h]
    rfl
  · by_cases h2 : x.msg_type = MSG_TYPE_LIGHT_BRIGHTNESS
    · simp only [if_neg h1, if_pos h2] at h
      exact absurd h (by simp)
    · by_cases h3 : x.msg_type = MSG_TYPE_LIGHT_COLOR_TEMP
      · simp only [if_neg h1, if_neg h2, if_pos h3] at h
        exact absurd h (by simp)
      · simp only [if_neg h1, if_neg h2, if_neg h3]

theorem apply_status_foldl_unrecognized :
    ∀ (statuses : List DeviceStatus) (dev : SymiDevice)
      (acc : ManagerState × List (String × StateValue)),
      (∀ x ∈ statuses, status_keys dev x = []) →
      statuses.foldl (apply_status dev) acc = acc
  | [] => fun _ _ _ => rfl
  | x :: tl => fun dev acc h => by
    simp only [List.foldl_cons]
    rw [apply_status_unrecognized dev x acc (h x (List.mem_cons_self x tl))]
    exact apply_status_foldl_unrecognized tl dev acc
      (fun y hy => h y (List.mem_cons_of_mem x hy))

theorem notify_pair_of_empty (uid : String) (o : ManagerState × List (String × StateValue))
    (h : o.2 = []) :
    (if o.2.isEmpty then (o.1, (none : Option (String × List (String × StateValue))))
      else (o.1, some (uid, o.2))).2 = none := by
  simp [h]

theorem notify_pair_some_inv (uid : String) (o : ManagerState × List (String × StateValue))
    (id : String) (upd : List (String × StateValue))
    (h : (if o.2.isEmpty then (o.1, (none : Option (String × List (String × StateValue))))
      else (o.1, some (uid, o.2))).2 = some (id, upd)) : id = uid ∧ upd = o.2 := by
  by_cases hc : o.2.isEmpty = true
  · rw [if_pos hc] at h
    simp at h
  · rw [if_neg hc] at h
    have h' : some (uid, o.2) = some (id, upd) := h
    have hpair := Option.some.inj h'
    exact ⟨(congrArg Prod.fst hpair).symm, (congrArg Prod.snd hpair).symm⟩

theorem notify_pair_some_of_ne (uid : String) (o : ManagerState × List (String × StateValue))
    (h : o.2 ≠ []) :
    (if o.2.isEmpty then (o.1, (none : Option (String × List (String × StateValue))))
      else (o.1, some (uid, o.2))).2 = some (uid, o.2) := by
  cases ho : o.2 with
  | nil => exact absurd ho h
  | cons a as => simp [ho]

/-- C6 (amended): `_handle_status_event` emits at most one notification
per inbound frame — none when the payload fails to parse, none when no
registered device matches the network address, and none when no
recognized message type decodes — and exactly one, keyed by the matched
device's identity, when a recognized message type decodes.  The
notification's content is determined by the frame and the device
registry alone, independently of the stored device-state values: its key
set contains every key decoded from the event's recognized message types
(a key is included whether or not its value differs from the stored
one), and an emitted notification is never empty. -/
theorem handle_status_event_notification (devs : List (String × SymiDevice))
    (ds1 ds2 : List (String × List (String × StateValue))) (data : List Nat) :
    (handle_status_event ⟨devs, ds1⟩ data).2 = (handle_status_event ⟨devs, ds2⟩ data).2 ∧
    (parse_status_event data = none → (handle_status_event ⟨devs, ds1⟩ data).2 = none) ∧
    (∀ s0 rest, parse_status_event data = some (s0 :: rest) →
      devs.find? (fun p => p.2.network_address == s0.network_address) = none →
      (handle_status_event ⟨devs, ds1⟩ data).2 = none) ∧
    (∀ s0 rest pdev, parse_status_event data = some (s0 :: rest) →
      devs.find? (fun p => p.2.network_address == s0.network_address) = some pdev →
      (∀ x ∈ s0 :: rest, status_keys pdev.2 x = []) →
      (handle_status_event ⟨devs, ds1⟩ data).2 = none) ∧
    (∀ id upd, (handle_status_event ⟨devs, ds1⟩ data).2 = some (id, upd) →
      upd ≠ [] ∧
      ∀ s0 rest pdev, parse_status_event data = some (s0 :: rest) →
        devs.find? (fun p => p.2.network_address == s0.network_address) = some pdev →
        id = pdev.2.unique_id ∧
        ∀ x ∈ s0 :: rest, ∀ k ∈ status_keys pdev.2 x, hasKey upd k = true) ∧
    (∀ s0 rest pdev, parse_status_event data = some (s0 :: rest) →
      devs.find? (fun p => p.2.network_address == s0.network_address) = some pdev →
      (∃ x ∈ s0 :: rest, status_keys pdev.2 x ≠ []) →
      ∃ upd, (handle_status_event ⟨devs, ds1⟩ data).2 = some (pdev.2.unique_id, upd)) := by
  refine ⟨?_, ?_, ?_, ?_, ?_, ?_⟩
  · unfold handle_status_event
    cases hp : parse_status_event data with
    | none => rfl
    | some l =>
      cases l with
      | nil => rfl
      | cons s0 rest =>
        cases hf : devs.find? (fun p => p.2.network_address == s0.network_address) with
        | none => simp [hf]
        | some pdev =>
          simp only [hf]
          exact notify_pair_snd pdev.2.unique_id
            ((s0 :: rest).foldl (apply_status pdev.2) (⟨devs, ds1⟩, []))
            ((s0 :: rest).foldl (apply_status pdev.2) (⟨devs, ds2⟩, []))
            (apply_status_foldl_snd (s0 :: rest) pdev.2 ⟨devs, ds1⟩ ⟨devs, ds2⟩ [])
  · intro h
    unfold handle_status_event
    rw [h]
  · intro s0 rest hps hfind
    unfold handle_status_event
    rw [hps]
    simp [hfind]
  · intro s0 rest pdev hps hfind hall
    unfold handle_status_event
    rw [hps]
    simp only [hfind]
    have hfold := apply_status_foldl_unrecognized (s0 :: rest) pdev.2 (⟨devs, ds1⟩, []) hall
    exact notify_pair_of_empty pdev.2.unique_id
      ((s0 :: rest).foldl (apply_status pdev.2) (⟨devs, ds1⟩, []))
      (congrArg Prod.snd hfold)
  · intro id upd h
    unfold handle_status_event at h
    cases hp : parse_status_event data with
    | none =>
      rw [hp] at h
      simp at h
    | some l =>
      cases l with
      | nil =>
        rw [hp] at h
        simp at h
      | cons s0 rest =>
        rw [hp] at h
        cases hf : devs.find? (fun p => p.2.network_address == s0.network_address) with
        | none =>
          simp [hf] at h
        | some pdev =>
          simp only [hf] at h
          refine ⟨notify_pair_snd_ne_nil pdev.2.unique_id
            ((s0 :: rest).foldl (apply_status pdev.2) (⟨devs, ds1⟩, [])) id upd h, ?_⟩
          intro s0' rest' pdev' hps hfind
          injection hps with hlist
          injection hlist with hs0 hrest
          subst hs0
          subst hrest
          rw [hf] at hfind
          have hpd : pdev = pdev' := Option.some.inj hfind
          subst hpd
          have hinv := notify_pair_some_inv pdev.2.unique_id
            ((s0 :: rest).foldl (apply_status pdev.2) (⟨devs, ds1⟩, [])) id upd h
          refine ⟨hinv.1, ?_⟩
          intro x hx k hk
          rw [hinv.2]
          exact apply_status_foldl_hasKey_keys (s0 :: rest) pdev.2 x k ⟨devs, ds1⟩ [] hx hk
  · intro s0 rest pdev hps hfind hex
    unfold handle_status_event
    rw [hps]
    simp only [hfind]
    obtain ⟨x, hx, hkne⟩ := hex
    cases hsk : status_keys pdev.2 x with
    | nil => exact absurd hsk hkne
    | cons k ks =>
      have hk : k ∈ status_keys pdev.2 x := by
        rw [hsk]
        exact List.mem_cons_self k ks
      have hhk := apply_status_foldl_hasKey_keys (s0 :: rest) pdev.2 x k ⟨devs, ds1⟩ [] hx hk
      have hnn : ((s0 :: rest).foldl (apply_status pdev.2) (⟨devs, ds1⟩, [])).2 ≠ [] :=
        hasKey_ne_nil _ k hhk
      exact ⟨((s0 :: rest).foldl (apply_status pdev.2) (⟨devs, ds1⟩, [])).2,
        notify_pair_some_of_ne pdev.2.unique_id
          ((s0 :: rest).foldl (apply_status pdev.2) (⟨devs, ds1⟩, [])) hnn⟩

/-- C6 counterexample: with brightness already stored as 50, a status
event reporting brightness 50 (no change) still yields a notification
whose key set contains `brightness` — contradicting the claim that only
keys whose stored value actually changed are included. -/
theorem handle_status_event_notifies_unchanged_key :
    state_get lampState "aabbccddeeff" "brightness" = some (StateValue.natVal 50) ∧
    (handle_status_event lampState brightnessEventPayload).2 =
      some ("aabbccddeeff", [("brightness", StateValue.natVal 50)]) ∧
    state_get (handle_status_event lampState brightnessEventPayload).1
      "aabbccddeeff" "brightness" = some (StateValue.natVal 50) := by
  decide

/-- Witness for C6 (amended) on the concrete lamp fixture: the emitted
notification is independent of the stored state values, non-empty, and
contains the decoded key `brightness`; a frame with an unrecognized
message type and an unparseable (too short) frame emit no
notification. -/
theorem handle_status_event_notification_witness :
    (handle_status_event ⟨lampState.devices, lampState.device_states⟩ brightnessEventPayload).2
      = (handle_status_event ⟨lampState.devices, []⟩ brightnessEventPayload).2 ∧
    ([("brightness", StateValue.natVal 50)] : List (String × StateValue)) ≠ [] ∧
    hasKey ([("brightness", StateValue.natVal 50)] : List (String × StateValue))
      "brightness" = true ∧
    (handle_status_event ⟨lampState.devices, lampState.device_states⟩
      [0x00, 0x34, 0x12, 0xAA, 0x01, 0x00]).2 = none ∧
    (handle_status_event ⟨lampState.devices, lampState.device_states⟩ [0x00, 0x34]).2 = none :=
  ⟨(handle_status_event_notification lampState.devices lampState.device_states []
      brightnessEventPayload).1,
   ((handle_status_event_notification lampState.devices lampState.device_states []
      brightnessEventPayload).2.2.2.2.1 "aabbccddeeff" [("brightness", StateValue.natVal 50)]
      (by decide)).1,
   (((handle_status_event_notification lampState.devices lampState.device_states []
      brightnessEventPayload).2.2.2.2.1 "aabbccddeeff" [("brightness", StateValue.natVal 50)]
      (by decide)).2 ⟨0x1234, 0x03, 50⟩ [] ("aabbccddeeff", lampDevice)
      (by decide) (by decide)).2 ⟨0x1234, 0x03, 50⟩ (by decide) "brightness" (by decide),
   (handle_status_event_notification lampState.devices lampState.device_states []
      [0x00, 0x34, 0x12, 0xAA, 0x01, 0x00]).2.2.2.1 ⟨0x1234, 0xAA, 0x01⟩ []
      ("aabbccddeeff", lampDevice) (by decide) (by decide) (by decide),
   (handle_status_event_notification lampState.devices lampState.device_states []
      [0x00, 0x34]).2.1 (by decide)⟩
